import Mathlib

/-!
Shallow embedding of the Triflight PID controller, `src/src/main/flight/pid.c`.

The C code computes over IEEE single-precision floats; the embedding uses `ℚ`
(exact arithmetic). All control flow, state updates and array-extent facts are
translated line by line from the source. Division in `ℚ` is total with
`x / 0 = 0`; wherever a claim turns on a zero denominator the denominator is
stated explicitly rather than relying on that totalisation.

External collaborators (gyro, mixer, RC, attitude) enter as per-tick input
snapshots; the three digital filters from `common/filter.c` (not part of the
sources) are reached only through function pointers in `pid.c`, and are
embedded as abstract stateful maps `σ → ℚ → ℚ × σ` carried in a `FilterBank`.
-/

/-- Clamp `amt` to `[low, high]`. Modelled from the spec: `constrainf` lives
in `common/maths.h`, which is not among the sources; it is the standard
clamp (`if (amt < low) return low; else if (amt > high) return high;`). -/
def constrainf (amt low high : ℚ) : ℚ :=
  if amt < low then low else if amt > high then high else amt

/-- Selector stored in `pidProfile->dterm_filter_type` (`FILTER_PT1`,
`FILTER_BIQUAD`, `FILTER_FIR`, or any other value, which the `switch` in
`pidInitFilters` sends to its `default:` arm). -/
inductive DtermFilterType where
  | filterPT1
  | filterBIQUAD
  | filterFIR
  | filterOther
  deriving DecidableEq

/-- The slice of `pidProfile_t` read by `pid.c`. The struct itself is declared
in `flight/pid.h` (not among the sources); field names follow the accesses in
`pid.c`. Per-axis tuning bytes and frequencies are naturals (C unsigned
integer fields); the level-mode floats are rationals. -/
structure PidProfile where
  rollP : ℕ
  rollI : ℕ
  rollD : ℕ
  pitchP : ℕ
  pitchI : ℕ
  pitchD : ℕ
  yawP : ℕ
  yawI : ℕ
  yawD : ℕ
  levelP : ℕ
  levelI : ℕ
  levelD : ℕ
  dtermSetpointWeight : ℕ
  setpointRelaxRatio : ℕ
  itermWindupPointPercent : ℕ
  rateAccelLimit : ℕ
  yawRateAccelLimit : ℕ
  dterm_notch_hz : ℕ
  dterm_notch_cutoff : ℕ
  dterm_lpf_hz : ℕ
  dterm_filter_type : DtermFilterType
  yaw_lpf_hz : ℕ
  levelSensitivity : ℚ
  levelAngleLimit : ℚ

/-- `pidProfile->P8[axis]` for the three flight axes (0 = roll, 1 = pitch,
2 = yaw). -/
def PidProfile.P8 (pp : PidProfile) (axis : Fin 3) : ℕ :=
  if axis = 0 then pp.rollP else if axis = 1 then pp.pitchP else pp.yawP

/-- `pidProfile->I8[axis]` for the three flight axes. -/
def PidProfile.I8 (pp : PidProfile) (axis : Fin 3) : ℕ :=
  if axis = 0 then pp.rollI else if axis = 1 then pp.pitchI else pp.yawI

/-- `pidProfile->D8[axis]` for the three flight axes. -/
def PidProfile.D8 (pp : PidProfile) (axis : Fin 3) : ℕ :=
  if axis = 0 then pp.rollD else if axis = 1 then pp.pitchD else pp.yawD

/-- Modelled from the spec: `PTERM_SCALE` is a fixed scale constant declared
in `flight/pid.h` (not among the sources); the upstream header value is
`0.032029f`. No claim depends on the exact value. -/
def PTERM_SCALE : ℚ := 32029 / 1000000

/-- Modelled from the spec: `ITERM_SCALE`, declared in `flight/pid.h`
(upstream value `0.244381f`). No claim depends on the exact value. -/
def ITERM_SCALE : ℚ := 244381 / 1000000

/-- Modelled from the spec: `DTERM_SCALE`, declared in `flight/pid.h`
(upstream value `0.000529f`). No claim depends on the exact value. -/
def DTERM_SCALE : ℚ := 529 / 1000000

/-- `dT` as set by `pidSetTargetLooptime`: the loop time in microseconds
times `0.000001`. -/
def pidDT (targetPidLooptime : ℕ) : ℚ := (targetPidLooptime : ℚ) / 1000000

/-- The derived working gains computed by `pidInitConfig` (file-scope statics
`Kp/Ki/Kd`, `maxVelocity`, `relaxFactor`, `dtermSetpointWeight`, `levelGain`,
`horizonGain`, `horizonTransition`, `ITermWindupPoint`, `ITermWindupPointInv`,
`disableTPAForYaw`). -/
structure PidGains where
  Kp : Fin 3 → ℚ
  Ki : Fin 3 → ℚ
  Kd : Fin 3 → ℚ
  maxVelocity : Fin 3 → ℚ
  relaxFactor : ℚ
  dtermSetpointWeight : ℚ
  levelGain : ℚ
  horizonGain : ℚ
  horizonTransition : ℚ
  ITermWindupPoint : ℚ
  ITermWindupPointInv : ℚ
  disableTPAForYaw : Bool

/-- `pidInitConfig` (pid.c lines 170-187), translated term by term. Note that
`ITermWindupPointInv = 1 / (1 - ITermWindupPoint)` is computed with no guard
on the denominator; in `ℚ` the totalised `1 / 0` collapses to `0`, whereas
the C float division yields `+inf` — claims about this point state the
denominator itself. `triMixerInUse` is the external mixer flag read once at
configuration time. -/
def pidInitConfig (pp : PidProfile) (dT : ℚ) (triMixerInUse : Bool) : PidGains where
  Kp := fun axis => PTERM_SCALE * (pp.P8 axis : ℚ)
  Ki := fun axis => ITERM_SCALE * (pp.I8 axis : ℚ)
  Kd := fun axis => DTERM_SCALE * (pp.D8 axis : ℚ)
  maxVelocity := fun axis =>
    if axis = 2 then (pp.yawRateAccelLimit : ℚ) * 1000 * dT
    else (pp.rateAccelLimit : ℚ) * 1000 * dT
  relaxFactor := 1 / ((pp.setpointRelaxRatio : ℚ) / 100)
  dtermSetpointWeight := (pp.dtermSetpointWeight : ℚ) / 127
  levelGain := (pp.levelP : ℚ) / 10
  horizonGain := (pp.levelI : ℚ) / 10
  horizonTransition := 100 / (pp.levelD : ℚ)
  ITermWindupPoint := (pp.itermWindupPointPercent : ℚ) / 100
  ITermWindupPointInv := 1 / (1 - (pp.itermWindupPointPercent : ℚ) / 100)
  disableTPAForYaw := triMixerInUse

/-- `uint32_t pidFrequencyNyquist = (1.0f / dT) / 2;` (pid.c line 110) —
the float-to-unsigned conversion truncates toward zero. -/
def pidFrequencyNyquist (dT : ℚ) : ℕ := Nat.floor ((1 / dT) / 2)

/-- The filter-apply function pointers `pidInitFilters` can install on a
signal path. -/
inductive FilterChoice where
  | nullFilterApply
  | biquadFilterApply
  | pt1FilterApply
  | firFilterDenoiseUpdate
  deriving DecidableEq

/-- Selection of `dtermNotchFilterApplyFn` (pid.c lines 114-123). -/
def dtermNotchFilterApplyFnOf (pp : PidProfile) (dT : ℚ) : FilterChoice :=
  if pp.dterm_notch_hz = 0 ∨ pp.dterm_notch_hz > pidFrequencyNyquist dT then
    .nullFilterApply
  else
    .biquadFilterApply

/-- The concrete apply function the `switch (pidProfile->dterm_filter_type)`
installs when the D-term low-pass path is enabled (pid.c lines 128-153). -/
def dtermLpfTypeChoice : DtermFilterType → FilterChoice
  | .filterPT1 => .pt1FilterApply
  | .filterBIQUAD => .biquadFilterApply
  | .filterFIR => .firFilterDenoiseUpdate
  | .filterOther => .nullFilterApply

/-- Selection of `dtermLpfApplyFn` (pid.c lines 125-154). -/
def dtermLpfApplyFnOf (pp : PidProfile) (dT : ℚ) : FilterChoice :=
  if pp.dterm_lpf_hz = 0 ∨ pp.dterm_lpf_hz > pidFrequencyNyquist dT then
    .nullFilterApply
  else
    dtermLpfTypeChoice pp.dterm_filter_type

/-- Selection of `ptermYawFilterApplyFn` (pid.c lines 156-162). -/
def ptermYawFilterApplyFnOf (pp : PidProfile) (dT : ℚ) : FilterChoice :=
  if pp.yaw_lpf_hz = 0 ∨ pp.yaw_lpf_hz > pidFrequencyNyquist dT then
    .nullFilterApply
  else
    .pt1FilterApply

/-- Declared extent of `static float previousRateError[2]` (pid.c line 234). -/
def previousRateErrorLength : ℕ := 2

/-- Declared extent of `static void *dtermFilterNotch[2]` (pid.c line 96). -/
def dtermFilterNotchLength : ℕ := 2

/-- Declared extent of `static void *dtermFilterLpf[2]` (pid.c line 98). -/
def dtermFilterLpfLength : ℕ := 2

/-- The guard of the derivative-term block,
`if ((axis != FD_YAW) || triMixerInUse())` (pid.c line 285), as a function of
the tri-mixer flag and the loop axis. -/
def dtermBranchTaken (triMixer : Bool) (axis : ℕ) : Bool :=
  decide (axis ≠ 2) || triMixer

/-- Inside the derivative-term block the code indexes `previousRateError`,
`dtermFilterNotch` and `dtermFilterLpf` at `axis` (pid.c lines 292-293 and
299-300); this predicate says all three accesses are within the declared
extents. -/
def dtermAccessInBounds (axis : ℕ) : Prop :=
  axis < previousRateErrorLength ∧ axis < dtermFilterNotchLength ∧
    axis < dtermFilterLpfLength

/-- `calcHorizonLevelStrength` (pid.c lines 189-197), as a function of the
derived `horizonTransition` and of the absolute roll/pitch stick deflections
(`getRcDeflectionAbs(FD_ROLL)`, `getRcDeflectionAbs(FD_PITCH)`). The function
contains no division; the only branch is the `horizonTransition > 0` guard. -/
def calcHorizonLevelStrength (horizonTransition rollDeflAbs pitchDeflAbs : ℚ) : ℚ :=
  if horizonTransition > 0 then
    constrainf (1 - max rollDeflAbs pitchDeflAbs * horizonTransition) 0 1
  else
    0

/-- The abstract filter bank: the three apply function pointers of `pid.c`
(`dtermNotchFilterApplyFn`, `dtermLpfApplyFn`, `ptermYawFilterApplyFn`). The
filters themselves live in `common/filter.c`, not among the sources, so each
is an opaque-to-the-claims stateful map. Each axis owns its own notch and
low-pass state, matching the per-axis `dtermFilterNotch[axis]` /
`dtermFilterLpf[axis]` state pointers behind the shared function pointer. -/
structure FilterBank (σn σl σy : Type) where
  notchApply : σn → ℚ → ℚ × σn
  lpfApply : σl → ℚ → ℚ × σl
  yawPApply : σy → ℚ → ℚ × σy

/-- One tick's snapshot of every external input `pidController` reads:
mixer (`getThrottlePIDAttenuation`, `getMotorMixRange`,
`mixerIsOutputSaturated`, `triMixerInUse`), RC (`getSetpointRate`,
`getRcDeflection`), gyro (`gyro.gyroADCf`), attitude (`attitude.raw`,
`angleTrim->raw`), flight-mode flags, the module values `itermAccelerator`
and `expectedGyroError` set by external calls, and the per-tick
`pidStabilisationEnabled` flag. `outputSaturated` is the mixer's boolean
answer for the axis in the direction of the current error. -/
structure TickInput where
  tpaFactor : ℚ
  motorMixRange : ℚ
  itermAccelerator : ℚ
  stabilisationEnabled : Bool
  angleMode : Bool
  horizonMode : Bool
  triMixer : Bool
  expectedGyroError : Fin 3 → ℚ
  setpointRate : Fin 3 → ℚ
  gyroRate : Fin 3 → ℚ
  rcDeflection : Fin 3 → ℚ
  outputSaturated : Fin 3 → Bool
  attitudeRaw : Fin 3 → ℚ
  angleTrimRaw : Fin 3 → ℚ

/-- The per-axis persistent controller state of `pid.c`: the three output
terms `axisPID_P/I/D[axis]` (file-scope, persisting between ticks; `I` is
also the integrator accumulator), the acceleration limiter's
`previousSetpoint[axis]`, the derivative path's `previousRateError[axis]`,
and the axis's notch and low-pass filter states. -/
structure AxisCtl (σn σl : Type) where
  P : ℚ
  I : ℚ
  D : ℚ
  prevSetpoint : ℚ
  prevRateError : ℚ
  notchSt : σn
  lpfSt : σl

/-- `pidLevel` (pid.c lines 199-217), non-GPS build (`GPS` not defined): the
angle error from stick deflection and attitude, then either full angle-mode
replacement or horizon-mode blending. -/
def pidLevel (pp : PidProfile) (g : PidGains) (ti : TickInput) (axis : Fin 3)
    (currentPidSetpoint : ℚ) : ℚ :=
  let errorAngle0 := pp.levelSensitivity * ti.rcDeflection axis
  let errorAngle1 := constrainf errorAngle0 (-pp.levelAngleLimit) pp.levelAngleLimit
  let errorAngle := errorAngle1 - (ti.attitudeRaw axis - ti.angleTrimRaw axis) / 10
  if ti.angleMode then
    errorAngle * g.levelGain
  else
    currentPidSetpoint + errorAngle * g.horizonGain *
      calcHorizonLevelStrength g.horizonTransition (abs (ti.rcDeflection 0))
        (abs (ti.rcDeflection 1))

/-- `accelerationLimit` (pid.c lines 219-228): the update applied to
`currentPidSetpoint`, given the previous stored setpoint. The stored
`previousSetpoint[axis]` for the next tick is exactly the returned value. -/
def accelerationLimit (maxVelocityAxis previousSetpoint currentPidSetpoint : ℚ) : ℚ :=
  let currentVelocity := currentPidSetpoint - previousSetpoint
  if abs currentVelocity > maxVelocityAxis then
    if currentVelocity > 0 then previousSetpoint + maxVelocityAxis
    else previousSetpoint - maxVelocityAxis
  else
    currentPidSetpoint

/-- The guarded call site `if (maxVelocity[axis]) currentPidSetpoint =
accelerationLimit(...)` (pid.c lines 245-246): with a zero `maxVelocity` the
stage is skipped entirely. -/
def accelStage (maxVelocityAxis previousSetpoint currentPidSetpoint : ℚ) : ℚ :=
  if maxVelocityAxis ≠ 0 then
    accelerationLimit maxVelocityAxis previousSetpoint currentPidSetpoint
  else
    currentPidSetpoint

/-- The value `previousSetpoint[axis]` holds after the tick: updated by
`accelerationLimit` when the stage runs, untouched when it is skipped. -/
def axisPrevSetpointNext (g : PidGains) (ti : TickInput) (axis : Fin 3)
    (prevSetpoint : ℚ) : ℚ :=
  if g.maxVelocity axis ≠ 0 then
    accelerationLimit (g.maxVelocity axis) prevSetpoint (ti.setpointRate axis)
  else
    prevSetpoint

/-- The shaped `currentPidSetpoint` an axis sees after acceleration limiting
(pid.c lines 245-246) and angle/horizon blending (pid.c lines 249-251). -/
def axisShapedSetpoint (pp : PidProfile) (g : PidGains) (ti : TickInput)
    (axis : Fin 3) (prevSetpoint : ℚ) : ℚ :=
  let sp1 := accelStage (g.maxVelocity axis) prevSetpoint (ti.setpointRate axis)
  if ((ti.angleMode = true ∨ ti.horizonMode = true) ∧ axis ≠ 2) then
    pidLevel pp g ti axis sp1
  else
    sp1

/-- `errorRate = currentPidSetpoint - gyroRate + expectedGyroError[axis]`
(pid.c line 260). -/
def axisErrorRate (pp : PidProfile) (g : PidGains) (ti : TickInput)
    (axis : Fin 3) (prevSetpoint : ℚ) : ℚ :=
  axisShapedSetpoint pp g ti axis prevSetpoint - ti.gyroRate axis +
    ti.expectedGyroError axis

/-- Result of a run of the derivative block (pid.c lines 285-301): the
filtered D output, the stored `previousRateError[axis]`, and the two filter
states after their `apply` calls. -/
structure DtermOut (σn σl : Type) where
  D : ℚ
  prevRateError : ℚ
  notchSt : σn
  lpfSt : σl

/-- The derivative block body (pid.c lines 286-300), shared verbatim by every
axis that takes the branch: setpoint weighting with optional relax-ratio
attenuation, differencing by `dT`, `Kd`/TPA scaling, then the notch and
low-pass filters in that order. -/
def dtermPath {σn σl σy : Type} (setpointRelaxRatio : ℕ)
    (dtermSetpointWeight relaxFactor KdAxis dT tpaFactor rcDeflectionAbs
      currentPidSetpoint gyroRate prevRateError : ℚ)
    (fb : FilterBank σn σl σy) (notchSt : σn) (lpfSt : σl) : DtermOut σn σl :=
  let dynC :=
    if setpointRelaxRatio < 100 then
      dtermSetpointWeight * min (rcDeflectionAbs * relaxFactor) 1
    else
      dtermSetpointWeight
  let rD := dynC * currentPidSetpoint - gyroRate
  let delta := (rD - prevRateError) / dT
  let dRaw := KdAxis * delta * tpaFactor
  let n := fb.notchApply notchSt dRaw
  let l := fb.lpfApply lpfSt n.1
  ⟨l.1, rD, n.2, l.2⟩

/-- One axis iteration of the `pidController` loop (pid.c lines 242-309),
acting on that axis's `AxisCtl` slice and on the shared yaw P-term filter
state. The final `if (!pidStabilisationEnabled)` zeroes the three outputs —
including `axisPID_I[axis]`, which is also the integrator accumulator — but
leaves `previousSetpoint`, `previousRateError` and every filter state exactly
as the enabled computation left them. -/
def pidAxisStep {σn σl σy : Type} (pp : PidProfile) (g : PidGains) (dT : ℚ)
    (fb : FilterBank σn σl σy) (ti : TickInput) (axis : Fin 3)
    (a : AxisCtl σn σl) (ys : σy) : AxisCtl σn σl × σy :=
  let dynKi := min ((1 - ti.motorMixRange) * g.ITermWindupPointInv) 1
  let sp := axisShapedSetpoint pp g ti axis a.prevSetpoint
  let errorRate := axisErrorRate pp g ti axis a.prevSetpoint
  let pRaw := g.Kp axis * errorRate
  let pPre :=
    if axis = 2 then (if g.disableTPAForYaw then pRaw else pRaw * ti.tpaFactor)
    else pRaw * ti.tpaFactor
  let pFil := if axis = 2 then fb.yawPApply ys pPre else (pPre, ys)
  let ITermNew := a.I + g.Ki axis * errorRate * dT * dynKi * ti.itermAccelerator
  let I :=
    if ti.outputSaturated axis = false ∨ abs ITermNew < abs a.I then ITermNew
    else a.I
  let dres :=
    if axis ≠ 2 ∨ ti.triMixer = true then
      dtermPath pp.setpointRelaxRatio g.dtermSetpointWeight g.relaxFactor
        (g.Kd axis) dT ti.tpaFactor (abs (ti.rcDeflection axis)) sp
        (ti.gyroRate axis) a.prevRateError fb a.notchSt a.lpfSt
    else
      ⟨a.D, a.prevRateError, a.notchSt, a.lpfSt⟩
  if ti.stabilisationEnabled then
    (⟨pFil.1, I, dres.D, axisPrevSetpointNext g ti axis a.prevSetpoint,
      dres.prevRateError, dres.notchSt, dres.lpfSt⟩, pFil.2)
  else
    (⟨0, 0, 0, axisPrevSetpointNext g ti axis a.prevSetpoint,
      dres.prevRateError, dres.notchSt, dres.lpfSt⟩, pFil.2)

/-- The full controller state: the three per-axis slices plus the single
shared yaw P-term filter state. -/
structure PidSt (σn σl σy : Type) where
  roll : AxisCtl σn σl
  pitch : AxisCtl σn σl
  yaw : AxisCtl σn σl
  yawPSt : σy

/-- One whole `pidController` invocation: the axis loop in source order
(roll, pitch, yaw). -/
def pidController {σn σl σy : Type} (pp : PidProfile) (g : PidGains) (dT : ℚ)
    (fb : FilterBank σn σl σy) (ti : TickInput) (st : PidSt σn σl σy) :
    PidSt σn σl σy :=
  let r := pidAxisStep pp g dT fb ti 0 st.roll st.yawPSt
  let p := pidAxisStep pp g dT fb ti 1 st.pitch r.2
  let yw := pidAxisStep pp g dT fb ti 2 st.yaw p.2
  ⟨r.1, p.1, yw.1, yw.2⟩

/-- A run of consecutive ticks, folding `pidController` over a list of
per-tick input snapshots. -/
def pidRun {σn σl σy : Type} (pp : PidProfile) (g : PidGains) (dT : ℚ)
    (fb : FilterBank σn σl σy) : List TickInput → PidSt σn σl σy → PidSt σn σl σy
  | [], st => st
  | ti :: rest, st => pidRun pp g dT fb rest (pidController pp g dT fb ti st)

/-- A representative tuning profile used to instantiate theorems on concrete
inputs. -/
def testProfile : PidProfile where
  rollP := 44
  rollI := 40
  rollD := 20
  pitchP := 58
  pitchI := 50
  pitchD := 22
  yawP := 70
  yawI := 45
  yawD := 20
  levelP := 50
  levelI := 50
  levelD := 75
  dtermSetpointWeight := 60
  setpointRelaxRatio := 100
  itermWindupPointPercent := 50
  rateAccelLimit := 0
  yawRateAccelLimit := 0
  dterm_notch_hz := 260
  dterm_notch_cutoff := 160
  dterm_lpf_hz := 100
  dterm_filter_type := DtermFilterType.filterBIQUAD
  yaw_lpf_hz := 0
  levelSensitivity := 55
  levelAngleLimit := 55

/-- The derived gains for `testProfile` at a 1000 microsecond loop time. -/
def testGains : PidGains := pidInitConfig testProfile (pidDT 1000) false

/-- A trivial filter bank (every path passes its input through unchanged),
used to instantiate the abstract filter parameters on concrete inputs. -/
def idFB : FilterBank Unit Unit Unit where
  notchApply := fun s x => (x, s)
  lpfApply := fun s x => (x, s)
  yawPApply := fun s x => (x, s)

/-- A quiescent tick with stabilisation disabled. -/
def tickOff : TickInput where
  tpaFactor := 1
  motorMixRange := 0
  itermAccelerator := 1
  stabilisationEnabled := false
  angleMode := false
  horizonMode := false
  triMixer := false
  expectedGyroError := fun _ => 0
  setpointRate := fun _ => 0
  gyroRate := fun _ => 0
  rcDeflection := fun _ => 0
  outputSaturated := fun _ => false
  attitudeRaw := fun _ => 0
  angleTrimRaw := fun _ => 0

/-- The same quiescent tick with stabilisation enabled. -/
def tickOn : TickInput := { tickOff with stabilisationEnabled := true }

/-- A controller axis slice whose integrator holds 5 degrees-per-second of
accumulated demand. -/
def axisWithI5 : AxisCtl Unit Unit where
  P := 0
  I := 5
  D := 0
  prevSetpoint := 0
  prevRateError := 0
  notchSt := ()
  lpfSt := ()

/-- The all-zero controller axis slice. -/
def axisZero : AxisCtl Unit Unit where
  P := 0
  I := 0
  D := 0
  prevSetpoint := 0
  prevRateError := 0
  notchSt := ()
  lpfSt := ()

/-- The all-zero whole-controller state. -/
def pidStZero : PidSt Unit Unit Unit := ⟨axisZero, axisZero, axisZero, ()⟩

/-- Claim C2: the derivative-term block is guarded by
`(axis != FD_YAW) || triMixerInUse()`, so with the tri-mixer flag set the
Yaw iteration (axis 2) enters the block and indexes `previousRateError`,
`dtermFilterNotch` and `dtermFilterLpf` — all declared with extent 2 — at
index 2, out of bounds. With the flag clear the block runs only for axes 0
and 1, whose accesses are in bounds; the final conjunct checks the branch
model against the source condition of line 285. -/
theorem C2_yaw_dterm_out_of_bounds :
    dtermBranchTaken true 2 = true ∧
    ¬ dtermAccessInBounds 2 ∧
    dtermBranchTaken false 2 = false ∧
    (∀ axis : Fin 2, dtermAccessInBounds axis.1) ∧
    (∀ (tm : Bool) (axis : Fin 3),
      dtermBranchTaken tm axis.1 = true ↔ (axis.1 ≠ 2 ∨ tm = true)) := by
  unfold dtermAccessInBounds dtermBranchTaken previousRateErrorLength
    dtermFilterNotchLength dtermFilterLpfLength
  decide

/-- The profile of claim C3: an integrator windup point of exactly 100%. -/
def windup100Profile : PidProfile :=
  { testProfile with itermWindupPointPercent := 100 }

/-- Claim C3: `pidInitConfig` computes
`ITermWindupPointInv = 1.0f / (1.0f - ITermWindupPoint)` with no guard, and
at a windup point of 100% the denominator is exactly zero — in C float
arithmetic the quotient is `+inf`, not a clamped maximum. The last conjunct
records the `ℚ`-totalised quotient `1 / 0 = 0`, showing no clamping to a
maximum representable value happens either. -/
theorem C3_windup_point_division_unguarded :
    (pidInitConfig windup100Profile (pidDT 500) false).ITermWindupPoint = 1 ∧
    1 - (pidInitConfig windup100Profile (pidDT 500) false).ITermWindupPoint = 0 ∧
    (pidInitConfig windup100Profile (pidDT 500) false).ITermWindupPointInv = 0 := by
  refine ⟨?_, ?_, ?_⟩ <;> norm_num [pidInitConfig, windup100Profile, testProfile]

/-- The profile of claim C4: every filter cutoff set exactly to the Nyquist
frequency of a 500 microsecond loop (1000 Hz). -/
def nyqProfile : PidProfile :=
  { testProfile with
    dterm_notch_hz := 1000
    dterm_lpf_hz := 1000
    dterm_filter_type := DtermFilterType.filterPT1
    yaw_lpf_hz := 1000 }

/-- The Nyquist frequency of a 500 microsecond loop is exactly 1000 Hz. -/
theorem pidFrequencyNyquist_500 : pidFrequencyNyquist (pidDT 500) = 1000 := by
  have h : (1 / pidDT 500) / 2 = ((1000 : ℕ) : ℚ) := by norm_num [pidDT]
  rw [pidFrequencyNyquist, h, Nat.floor_natCast]

/-- Claim C4, counterexample: at a 500 microsecond loop the Nyquist frequency
is 1000 Hz, and a cutoff of exactly 1000 Hz selects the real configured
filter on all three paths — not the passthrough the claim asserts (the
source comparison `cutoff > pidFrequencyNyquist` is strict). -/
theorem C4_nyquist_inclusive_refuted :
    pidFrequencyNyquist (pidDT 500) = 1000 ∧
    nyqProfile.dterm_notch_hz = 1000 ∧
    nyqProfile.dterm_lpf_hz = 1000 ∧
    nyqProfile.yaw_lpf_hz = 1000 ∧
    dtermNotchFilterApplyFnOf nyqProfile (pidDT 500) = FilterChoice.biquadFilterApply ∧
    dtermLpfApplyFnOf nyqProfile (pidDT 500) = FilterChoice.pt1FilterApply ∧
    ptermYawFilterApplyFnOf nyqProfile (pidDT 500) = FilterChoice.pt1FilterApply ∧
    FilterChoice.biquadFilterApply ≠ FilterChoice.nullFilterApply ∧
    FilterChoice.pt1FilterApply ≠ FilterChoice.nullFilterApply := by
  refine ⟨pidFrequencyNyquist_500, rfl, rfl, rfl, ?_, ?_, ?_, by decide, by decide⟩
  · simp [dtermNotchFilterApplyFnOf, pidFrequencyNyquist_500, nyqProfile]
  · simp [dtermLpfApplyFnOf, pidFrequencyNyquist_500, nyqProfile, dtermLpfTypeChoice]
  · simp [ptermYawFilterApplyFnOf, pidFrequencyNyquist_500, nyqProfile]

/-- Claim C4 as amended: the Nyquist boundary is exclusive of passthrough —
a cutoff of zero or strictly above the Nyquist frequency selects the no-op
filter, while any nonzero cutoff at or below the Nyquist frequency (in
particular exactly at it, or one unit below) selects the real configured
filter; this policy is identical for the D-term notch, D-term low-pass and
yaw P-term low-pass paths, the low-pass path additionally degrading to the
no-op filter on an unrecognized type selector. -/
theorem C4_nyquist_boundary_strict (pp : PidProfile) (dT : ℚ) :
    (pp.dterm_notch_hz ≠ 0 → pp.dterm_notch_hz ≤ pidFrequencyNyquist dT →
      dtermNotchFilterApplyFnOf pp dT = FilterChoice.biquadFilterApply) ∧
    (pp.dterm_notch_hz > pidFrequencyNyquist dT →
      dtermNotchFilterApplyFnOf pp dT = FilterChoice.nullFilterApply) ∧
    (pp.dterm_lpf_hz ≠ 0 → pp.dterm_lpf_hz ≤ pidFrequencyNyquist dT →
      dtermLpfApplyFnOf pp dT = dtermLpfTypeChoice pp.dterm_filter_type) ∧
    (pp.dterm_lpf_hz > pidFrequencyNyquist dT →
      dtermLpfApplyFnOf pp dT = FilterChoice.nullFilterApply) ∧
    (pp.yaw_lpf_hz ≠ 0 → pp.yaw_lpf_hz ≤ pidFrequencyNyquist dT →
      ptermYawFilterApplyFnOf pp dT = FilterChoice.pt1FilterApply) ∧
    (pp.yaw_lpf_hz > pidFrequencyNyquist dT →
      ptermYawFilterApplyFnOf pp dT = FilterChoice.nullFilterApply) := by
  refine ⟨?_, ?_, ?_, ?_, ?_, ?_⟩
  · intro h1 h2
    have hc : ¬ (pp.dterm_notch_hz = 0 ∨ pp.dterm_notch_hz > pidFrequencyNyquist dT) := by
      push_neg
      exact ⟨h1, h2⟩
    simp [dtermNotchFilterApplyFnOf, hc]
  · intro h1
    simp [dtermNotchFilterApplyFnOf, h1]
  · intro h1 h2
    have hc : ¬ (pp.dterm_lpf_hz = 0 ∨ pp.dterm_lpf_hz > pidFrequencyNyquist dT) := by
      push_neg
      exact ⟨h1, h2⟩
    simp [dtermLpfApplyFnOf, hc]
  · intro h1
    simp [dtermLpfApplyFnOf, h1]
  · intro h1 h2
    have hc : ¬ (pp.yaw_lpf_hz = 0 ∨ pp.yaw_lpf_hz > pidFrequencyNyquist dT) := by
      push_neg
      exact ⟨h1, h2⟩
    simp [ptermYawFilterApplyFnOf, hc]
  · intro h1
    simp [ptermYawFilterApplyFnOf, h1]

/-- Concrete instantiation of the amended C4 boundary theorem: at the 1000 Hz
Nyquist limit of a 500 microsecond loop, a 1000 Hz cutoff yields the real
filter on each path. -/
theorem C4_nyquist_boundary_strict_witness :
    nyqProfile.dterm_notch_hz ≠ 0 ∧
    nyqProfile.dterm_notch_hz ≤ pidFrequencyNyquist (pidDT 500) ∧
    dtermNotchFilterApplyFnOf nyqProfile (pidDT 500) = FilterChoice.biquadFilterApply ∧
    dtermLpfApplyFnOf nyqProfile (pidDT 500) = dtermLpfTypeChoice nyqProfile.dterm_filter_type ∧
    ptermYawFilterApplyFnOf nyqProfile (pidDT 500) = FilterChoice.pt1FilterApply :=
  ⟨by decide, by rw [pidFrequencyNyquist_500]; decide,
    (C4_nyquist_boundary_strict nyqProfile (pidDT 500)).1 (by decide)
      (by rw [pidFrequencyNyquist_500]; decide),
    (C4_nyquist_boundary_strict nyqProfile (pidDT 500)).2.2.1 (by decide)
      (by rw [pidFrequencyNyquist_500]; decide),
    (C4_nyquist_boundary_strict nyqProfile (pidDT 500)).2.2.2.2.1 (by decide)
      (by rw [pidFrequencyNyquist_500]; decide)⟩

/-- Modelled from the spec: the profile's `rateAccelLimit` field is stored in
degrees/sec per millisecond (its unit is declared with the field in
`flight/pid.h`, which is not among the sources); the configured limit in
degrees/sec/sec is therefore the field value times 1000. -/
def rateAccelLimitDegPerSecSq (pp : PidProfile) : ℚ := (pp.rateAccelLimit : ℚ) * 1000

/-- Modelled from the spec: the Yaw acceleration limit in degrees/sec/sec,
from the independently configured `yawRateAccelLimit` field. -/
def yawRateAccelLimitDegPerSecSq (pp : PidProfile) : ℚ := (pp.yawRateAccelLimit : ℚ) * 1000

/-- Claim C8: `maxVelocity[axis]` is the configured acceleration limit in
degrees/sec/sec times the sample period, Roll and Pitch sharing one
configured constant and Yaw using its own. -/
theorem C8_max_velocity_derivation (pp : PidProfile) (dT : ℚ) (tm : Bool) :
    (pidInitConfig pp dT tm).maxVelocity 0 = rateAccelLimitDegPerSecSq pp * dT ∧
    (pidInitConfig pp dT tm).maxVelocity 1 = rateAccelLimitDegPerSecSq pp * dT ∧
    (pidInitConfig pp dT tm).maxVelocity 2 = yawRateAccelLimitDegPerSecSq pp * dT ∧
    (pidInitConfig pp dT tm).maxVelocity 0 = (pidInitConfig pp dT tm).maxVelocity 1 := by
  refine ⟨?_, ?_, ?_, ?_⟩ <;>
    simp [pidInitConfig, rateAccelLimitDegPerSecSq, yawRateAccelLimitDegPerSecSq,
      mul_assoc]

/-- The integral-accumulator update in the words of the spec (§4.5 step 3):
candidate `newI` from the dynamic-Ki-scaled increment, committed unless the
mixer reports saturation on the axis in the error direction and the
magnitude would not shrink. Used as the specification side of the C5
refinement. -/
def itermSpecUpdate (KiAxis dT windupReciprocal integratorAccelerator
    motorMixSaturation errorRate oldI : ℚ) (outputSaturated : Bool) : ℚ :=
  let dynamicKiScale := min ((1 - motorMixSaturation) * windupReciprocal) 1
  let newI := oldI + KiAxis * errorRate * dT * dynamicKiScale * integratorAccelerator
  if outputSaturated = false ∨ abs newI < abs oldI then newI else oldI

/-- Claim C5: on a stabilisation-enabled tick the committed integrator value
of any axis equals the spec's commit rule applied to that axis's inputs, and
under the rule a saturated axis never grows the integrator's magnitude. -/
theorem C5_iterm_commit_rule {σn σl σy : Type} (pp : PidProfile) (g : PidGains)
    (dT : ℚ) (fb : FilterBank σn σl σy) (ti : TickInput) (axis : Fin 3)
    (a : AxisCtl σn σl) (ys : σy) (hstab : ti.stabilisationEnabled = true) :
    (pidAxisStep pp g dT fb ti axis a ys).1.I =
      itermSpecUpdate (g.Ki axis) dT g.ITermWindupPointInv ti.itermAccelerator
        ti.motorMixRange (axisErrorRate pp g ti axis a.prevSetpoint) a.I
        (ti.outputSaturated axis) ∧
    (∀ k d w c m e o : ℚ, abs (itermSpecUpdate k d w c m e o true) ≤ abs o) := by
  constructor
  · simp [pidAxisStep, itermSpecUpdate, hstab]
  · intro k d w c m e o
    unfold itermSpecUpdate
    dsimp only
    split
    · next h =>
      rcases h with h | h
      · exact absurd h (by simp)
      · exact le_of_lt h
    · exact le_refl _

/-- Concrete instantiation of the C5 commit-rule refinement on a quiescent
enabled tick. -/
theorem C5_iterm_commit_rule_witness :
    tickOn.stabilisationEnabled = true ∧
    (pidAxisStep testProfile testGains (pidDT 1000) idFB tickOn 0 axisWithI5 ()).1.I =
      itermSpecUpdate (testGains.Ki 0) (pidDT 1000) testGains.ITermWindupPointInv
        tickOn.itermAccelerator tickOn.motorMixRange
        (axisErrorRate testProfile testGains tickOn 0 axisWithI5.prevSetpoint)
        axisWithI5.I (tickOn.outputSaturated 0) :=
  ⟨rfl, (C5_iterm_commit_rule testProfile testGains (pidDT 1000) idFB tickOn 0
    axisWithI5 () rfl).1⟩

/-- Claim C6: for a positive per-axis velocity limit the acceleration-limit
stage moves the stored setpoint by at most the limit per tick and acts as
the identity when the requested change is within the limit; a zero limit
skips the stage entirely, and when the stage runs the stored
`previousSetpoint` for the next tick is exactly the stage's output. -/
theorem C6_acceleration_limit_bound :
    (∀ maxV prev sp : ℚ, 0 < maxV →
      abs (accelStage maxV prev sp - prev) ≤ maxV ∧
      (abs (sp - prev) ≤ maxV → accelStage maxV prev sp = sp)) ∧
    (∀ prev sp : ℚ, accelStage 0 prev sp = sp) ∧
    (∀ (g : PidGains) (ti : TickInput) (axis : Fin 3) (prev : ℚ),
      g.maxVelocity axis ≠ 0 →
      axisPrevSetpointNext g ti axis prev =
        accelStage (g.maxVelocity axis) prev (ti.setpointRate axis)) := by
  refine ⟨?_, ?_, ?_⟩
  · intro maxV prev sp hpos
    have hne : maxV ≠ 0 := ne_of_gt hpos
    unfold accelStage accelerationLimit
    rw [if_pos hne]
    dsimp only
    constructor
    · split
      · split
        · next hv =>
          have h : prev + maxV - prev = maxV := by ring
          rw [h, abs_of_pos hpos]
        · next hv =>
          have h : prev - maxV - prev = -maxV := by ring
          rw [h, abs_neg, abs_of_pos hpos]
      · next hgt => exact not_lt.mp hgt
    · intro hle
      rw [if_neg (not_lt.mpr hle)]
  · intro prev sp
    simp [accelStage]
  · intro g ti axis prev hne
    unfold axisPrevSetpointNext accelStage
    rw [if_pos hne, if_pos hne]

/-- Concrete instantiation of the C6 acceleration-limit bound: a requested
jump from 0 to 5 with a limit of 2 moves the shaped setpoint by at most 2. -/
theorem C6_acceleration_limit_bound_witness :
    (0 : ℚ) < 2 ∧ abs (accelStage 2 0 5 - 0) ≤ 2 ∧
    (abs ((1 : ℚ) - 0) ≤ 2 → accelStage 2 0 1 = 1) :=
  ⟨by norm_num, (C6_acceleration_limit_bound.1 2 0 5 (by norm_num)).1,
    (C6_acceleration_limit_bound.1 2 0 1 (by norm_num)).2⟩

/-- Claim C9: the horizon level strength is always clamped to the unit
interval, equals the linear fade `1 - mostDeflected * horizonTransition`
wherever that value lies in the unit interval, is 0 at deflection 1/2 when
`horizonTransition = 2`, is 1 at zero deflection, and is forced to 0 by a
zero `horizonTransition` (the function performs no division at all). -/
theorem C9_horizon_level_strength :
    (∀ ht r p : ℚ, 0 ≤ calcHorizonLevelStrength ht r p ∧
      calcHorizonLevelStrength ht r p ≤ 1) ∧
    (∀ ht r p : ℚ, 0 < ht → 0 ≤ max r p → 0 ≤ 1 - max r p * ht →
      calcHorizonLevelStrength ht r p = 1 - max r p * ht) ∧
    (∀ r p : ℚ, max r p = 1 / 2 → calcHorizonLevelStrength 2 r p = 0) ∧
    (∀ r p : ℚ, max r p = 0 → calcHorizonLevelStrength 2 r p = 1) ∧
    (∀ r p : ℚ, calcHorizonLevelStrength 0 r p = 0) := by
  refine ⟨?_, ?_, ?_, ?_, ?_⟩
  · intro ht r p
    unfold calcHorizonLevelStrength constrainf
    split
    · split
      · norm_num
      · split
        · norm_num
        · next h1 h2 =>
          constructor
          · exact not_lt.mp h1
          · exact not_lt.mp h2
    · norm_num
  · intro ht r p hht hmax hval
    unfold calcHorizonLevelStrength constrainf
    rw [if_pos hht, if_neg (not_lt.mpr hval), if_neg]
    rw [not_lt]
    have : 0 ≤ max r p * ht := mul_nonneg hmax (le_of_lt hht)
    linarith
  · intro r p h
    unfold calcHorizonLevelStrength constrainf
    rw [h]
    norm_num
  · intro r p h
    unfold calcHorizonLevelStrength constrainf
    rw [h]
    norm_num
  · intro r p
    unfold calcHorizonLevelStrength
    norm_num

/-- Concrete instantiation of the C9 horizon-fade facts: fade value 1/2 at
quarter deflection, 0 at half deflection, 1 at zero deflection, all with
`horizonTransition = 2`. -/
theorem C9_horizon_level_strength_witness :
    ((0 : ℚ) < 2 ∧ (0 : ℚ) ≤ max (1 / 4 : ℚ) 0 ∧
      (0 : ℚ) ≤ 1 - max (1 / 4 : ℚ) 0 * 2) ∧
    calcHorizonLevelStrength 2 (1 / 4) 0 = 1 - max (1 / 4 : ℚ) 0 * 2 ∧
    max (1 / 2 : ℚ) 0 = 1 / 2 ∧
    calcHorizonLevelStrength 2 (1 / 2) 0 = 0 ∧
    max (0 : ℚ) 0 = 0 ∧
    calcHorizonLevelStrength 2 0 0 = 1 :=
  ⟨⟨by norm_num, by norm_num, by norm_num⟩,
    C9_horizon_level_strength.2.1 2 (1 / 4) 0 (by norm_num) (by norm_num) (by norm_num),
    by norm_num,
    C9_horizon_level_strength.2.2.1 (1 / 2) 0 (by norm_num),
    by norm_num,
    C9_horizon_level_strength.2.2.2.1 0 0 (by norm_num)⟩

/-- Claim C10: under the validated configuration range (the profile field is
a percentage, 0 to 100 — modelled from the spec, since the range check lives
in the configuration subsystem outside the sources), the derived
`dtermSetpointWeight = field / 127` lies in the unit interval. -/
theorem C10_dterm_setpoint_weight_range (pp : PidProfile) (dT : ℚ) (tm : Bool)
    (h : pp.dtermSetpointWeight ≤ 100) :
    0 ≤ (pidInitConfig pp dT tm).dtermSetpointWeight ∧
    (pidInitConfig pp dT tm).dtermSetpointWeight ≤ 1 := by
  unfold pidInitConfig
  dsimp only
  constructor
  · positivity
  · rw [div_le_one (by norm_num)]
    calc (pp.dtermSetpointWeight : ℚ) ≤ 100 := by exact_mod_cast h
      _ ≤ 127 := by norm_num

/-- Concrete instantiation of the C10 weight-range bound on the test
profile. -/
theorem C10_dterm_setpoint_weight_range_witness :
    testProfile.dtermSetpointWeight ≤ 100 ∧
    0 ≤ (pidInitConfig testProfile (pidDT 1000) false).dtermSetpointWeight ∧
    (pidInitConfig testProfile (pidDT 1000) false).dtermSetpointWeight ≤ 1 :=
  ⟨by decide,
    (C10_dterm_setpoint_weight_range testProfile (pidDT 1000) false (by decide)).1,
    (C10_dterm_setpoint_weight_range testProfile (pidDT 1000) false (by decide)).2⟩

/-- With the tri-mixer flag clear the Yaw iteration never enters the
derivative block, so the yaw D output either persists (enabled tick) or is
zeroed by the stabilisation gate (disabled tick). -/
theorem pidAxisStep_yaw_D_skip {σn σl σy : Type} (pp : PidProfile) (g : PidGains)
    (dT : ℚ) (fb : FilterBank σn σl σy) (ti : TickInput) (a : AxisCtl σn σl)
    (ys : σy) (hflag : ti.triMixer = false) :
    (pidAxisStep pp g dT fb ti 2 a ys).1.D =
      (if ti.stabilisationEnabled then a.D else 0) := by
  by_cases hs : ti.stabilisationEnabled <;> simp [pidAxisStep, hflag, hs]

/-- Lifting of the yaw derivative skip to a whole `pidController` tick:
with the flag clear a zero yaw D output stays zero. -/
theorem pidController_yaw_D_skip {σn σl σy : Type} (pp : PidProfile)
    (g : PidGains) (dT : ℚ) (fb : FilterBank σn σl σy) (ti : TickInput)
    (st : PidSt σn σl σy) (hflag : ti.triMixer = false) (hD : st.yaw.D = 0) :
    (pidController pp g dT fb ti st).yaw.D = 0 := by
  simp only [pidController]
  rw [pidAxisStep_yaw_D_skip pp g dT fb ti st.yaw _ hflag, hD]
  split <;> rfl

/-- Over any run of ticks that all have the tri-mixer flag clear, a zero yaw
D output is invariant. -/
theorem pidRun_yaw_D_zero {σn σl σy : Type} (pp : PidProfile) (g : PidGains)
    (dT : ℚ) (fb : FilterBank σn σl σy) :
    ∀ (inputs : List TickInput) (st : PidSt σn σl σy),
      (∀ ti ∈ inputs, ti.triMixer = false) → st.yaw.D = 0 →
      (pidRun pp g dT fb inputs st).yaw.D = 0 := by
  intro inputs
  induction inputs with
  | nil =>
    intro st _ hD
    exact hD
  | cons ti rest ih =>
    intro st hflag hD
    exact ih (pidController pp g dT fb ti st)
      (fun t ht => hflag t (List.mem_cons_of_mem ti ht))
      (pidController_yaw_D_skip pp g dT fb ti st
        (hflag ti (List.mem_cons_self ti rest)) hD)

/-- Claim C7: with the tri-mixer flag clear on every tick of a run the Yaw D
output is exactly 0 throughout (starting from the zero-initialised state),
and on any stabilisation-enabled tick on which an axis takes the derivative
branch — Roll and Pitch always, Yaw exactly when the flag is set — its D
output is the one shared derivative computation `dtermPath` (setpoint
weighting, differencing by `dT`, `Kd` and TPA scaling, notch then low-pass)
applied to that axis's inputs. -/
theorem C7_yaw_dterm_gating :
    (∀ {σn σl σy : Type} (pp : PidProfile) (g : PidGains) (dT : ℚ)
        (fb : FilterBank σn σl σy) (inputs : List TickInput) (st : PidSt σn σl σy),
      (∀ ti ∈ inputs, ti.triMixer = false) → st.yaw.D = 0 →
      (pidRun pp g dT fb inputs st).yaw.D = 0) ∧
    (∀ {σn σl σy : Type} (pp : PidProfile) (g : PidGains) (dT : ℚ)
        (fb : FilterBank σn σl σy) (ti : TickInput) (axis : Fin 3)
        (a : AxisCtl σn σl) (ys : σy),
      ti.stabilisationEnabled = true → (axis ≠ 2 ∨ ti.triMixer = true) →
      (pidAxisStep pp g dT fb ti axis a ys).1.D =
        (dtermPath pp.setpointRelaxRatio g.dtermSetpointWeight g.relaxFactor
          (g.Kd axis) dT ti.tpaFactor (abs (ti.rcDeflection axis))
          (axisShapedSetpoint pp g ti axis a.prevSetpoint) (ti.gyroRate axis)
          a.prevRateError fb a.notchSt a.lpfSt).D) := by
  constructor
  · intro σn σl σy pp g dT fb inputs st hflag hD
    exact pidRun_yaw_D_zero pp g dT fb inputs st hflag hD
  · intro σn σl σy pp g dT fb ti axis a ys hstab hd
    simp only [pidAxisStep]
    rw [if_pos hd]
    simp [hstab]

/-- Concrete instantiation of the C7 gating facts: a run of one enabled
tri-mixer-off tick keeps yaw D at zero, and roll's D on that tick is the
shared derivative computation. -/
theorem C7_yaw_dterm_gating_witness :
    (∀ ti ∈ [tickOn], ti.triMixer = false) ∧ pidStZero.yaw.D = 0 ∧
    (pidRun testProfile testGains (pidDT 1000) idFB [tickOn] pidStZero).yaw.D = 0 ∧
    tickOn.stabilisationEnabled = true ∧
    (pidAxisStep testProfile testGains (pidDT 1000) idFB tickOn 0 axisZero ()).1.D =
      (dtermPath testProfile.setpointRelaxRatio testGains.dtermSetpointWeight
        testGains.relaxFactor (testGains.Kd 0) (pidDT 1000) tickOn.tpaFactor
        (abs (tickOn.rcDeflection 0))
        (axisShapedSetpoint testProfile testGains tickOn 0 axisZero.prevSetpoint)
        (tickOn.gyroRate 0) axisZero.prevRateError idFB axisZero.notchSt
        axisZero.lpfSt).D := by
  have hmem : ∀ ti ∈ [tickOn], ti.triMixer = false := by
    intro t ht
    rw [List.mem_singleton] at ht
    subst ht
    rfl
  exact ⟨hmem, rfl,
    C7_yaw_dterm_gating.1 testProfile testGains (pidDT 1000) idFB [tickOn]
      pidStZero hmem rfl,
    rfl,
    C7_yaw_dterm_gating.2 testProfile testGains (pidDT 1000) idFB tickOn 0
      axisZero () rfl (Or.inl (by decide))⟩

/-- The same tick input with the stabilisation flag forced on; every other
field untouched. -/
def stabOn (ti : TickInput) : TickInput := { ti with stabilisationEnabled := true }

/-- Projection facts for `stabOn`. -/
theorem stabOn_stabilisationEnabled (ti : TickInput) :
    (stabOn ti).stabilisationEnabled = true := rfl

/-- Projection facts for `stabOn`. -/
theorem stabOn_tpaFactor (ti : TickInput) : (stabOn ti).tpaFactor = ti.tpaFactor := rfl

/-- Projection facts for `stabOn`. -/
theorem stabOn_motorMixRange (ti : TickInput) :
    (stabOn ti).motorMixRange = ti.motorMixRange := rfl

/-- Projection facts for `stabOn`. -/
theorem stabOn_itermAccelerator (ti : TickInput) :
    (stabOn ti).itermAccelerator = ti.itermAccelerator := rfl

/-- Projection facts for `stabOn`. -/
theorem stabOn_angleMode (ti : TickInput) : (stabOn ti).angleMode = ti.angleMode := rfl

/-- Projection facts for `stabOn`. -/
theorem stabOn_horizonMode (ti : TickInput) :
    (stabOn ti).horizonMode = ti.horizonMode := rfl

/-- Projection facts for `stabOn`. -/
theorem stabOn_triMixer (ti : TickInput) : (stabOn ti).triMixer = ti.triMixer := rfl

/-- Projection facts for `stabOn`. -/
theorem stabOn_expectedGyroError (ti : TickInput) :
    (stabOn ti).expectedGyroError = ti.expectedGyroError := rfl

/-- Projection facts for `stabOn`. -/
theorem stabOn_setpointRate (ti : TickInput) :
    (stabOn ti).setpointRate = ti.setpointRate := rfl

/-- Projection facts for `stabOn`. -/
theorem stabOn_gyroRate (ti : TickInput) : (stabOn ti).gyroRate = ti.gyroRate := rfl

/-- Projection facts for `stabOn`. -/
theorem stabOn_rcDeflection (ti : TickInput) :
    (stabOn ti).rcDeflection = ti.rcDeflection := rfl

/-- Projection facts for `stabOn`. -/
theorem stabOn_outputSaturated (ti : TickInput) :
    (stabOn ti).outputSaturated = ti.outputSaturated := rfl

/-- Projection facts for `stabOn`. -/
theorem stabOn_attitudeRaw (ti : TickInput) :
    (stabOn ti).attitudeRaw = ti.attitudeRaw := rfl

/-- Projection facts for `stabOn`. -/
theorem stabOn_angleTrimRaw (ti : TickInput) :
    (stabOn ti).angleTrimRaw = ti.angleTrimRaw := rfl

/-- The P output, the shared yaw filter state, and — when the derivative
branch is taken — the D output of `pidAxisStep` never read the previous
tick's P/I/D outputs: they are determined by the history fields
(`prevSetpoint`, `prevRateError`, the filter states) alone. -/
theorem pidAxisStep_history_determined {σn σl σy : Type} (pp : PidProfile)
    (g : PidGains) (dT : ℚ) (fb : FilterBank σn σl σy) (ti : TickInput)
    (axis : Fin 3) (a b : AxisCtl σn σl) (ys : σy)
    (h1 : a.prevSetpoint = b.prevSetpoint)
    (h2 : a.prevRateError = b.prevRateError)
    (h3 : a.notchSt = b.notchSt) (h4 : a.lpfSt = b.lpfSt) :
    (pidAxisStep pp g dT fb ti axis a ys).1.P =
      (pidAxisStep pp g dT fb ti axis b ys).1.P ∧
    (pidAxisStep pp g dT fb ti axis a ys).2 =
      (pidAxisStep pp g dT fb ti axis b ys).2 ∧
    ((axis ≠ 2 ∨ ti.triMixer = true) →
      (pidAxisStep pp g dT fb ti axis a ys).1.D =
        (pidAxisStep pp g dT fb ti axis b ys).1.D) := by
  obtain ⟨Pa, Ia, Da, psa, prea, nsa, lsa⟩ := a
  obtain ⟨Pb, Ib, Db, psb, preb, nsb, lsb⟩ := b
  dsimp only at h1 h2 h3 h4
  subst h1
  subst h2
  subst h3
  subst h4
  refine ⟨?_, ?_, ?_⟩
  · by_cases hs : ti.stabilisationEnabled <;> simp [pidAxisStep, hs]
  · by_cases hs : ti.stabilisationEnabled <;> simp [pidAxisStep, hs]
  · intro hd
    by_cases hs : ti.stabilisationEnabled <;>
      (simp only [pidAxisStep]; rw [if_pos hd, if_pos hd]; simp [hs])

/-- Claim C1, counterexample: one stabilisation-disabled tick zeroes the
integrator accumulator itself — `axisPID_I[axis]` is both the I output and
the accumulator — while the identical enabled tick leaves the accumulated
value 5 in place; no reset call (`pidResetErrorGyroState` /
`pidResetErrorGyroAxis`) is involved. This refutes "the integrator
accumulator state is not cleared by this gate". -/
theorem C1_stab_gate_clears_integrator :
    tickOff.stabilisationEnabled = false ∧
    axisWithI5.I = 5 ∧
    (pidAxisStep testProfile testGains (pidDT 1000) idFB tickOff 0 axisWithI5 ()).1.I = 0 ∧
    (pidAxisStep testProfile testGains (pidDT 1000) idFB tickOn 0 axisWithI5 ()).1.I = 5 := by
  refine ⟨rfl, rfl, ?_, ?_⟩ <;>
    norm_num [pidAxisStep, axisShapedSetpoint, axisErrorRate, axisPrevSetpointNext,
      accelStage, accelerationLimit, pidLevel, calcHorizonLevelStrength, constrainf,
      dtermPath, testGains, pidInitConfig, testProfile, pidDT, tickOff, tickOn,
      axisWithI5, idFB, ITERM_SCALE, PTERM_SCALE, DTERM_SCALE,
      PidProfile.P8, PidProfile.I8, PidProfile.D8]

/-- Claim C1 as amended: a stabilisation-disabled tick forces the P, I and D
outputs of every axis to zero, and — because the I output is the integrator
accumulator — this clears the integrator state; the slew history, derivative
history and filter states are exactly those of the corresponding enabled
tick, so a following enabled tick computes exactly the P term, and exactly
the D term wherever the derivative branch is taken, that it would have
computed had stabilisation never been disabled, while the integrator
restarts from zero rather than from its prior history. -/
theorem C1_stab_gate_masks_output {σn σl σy : Type} (pp : PidProfile)
    (g : PidGains) (dT : ℚ) (fb : FilterBank σn σl σy) (ti ti2 : TickInput)
    (axis : Fin 3) (a : AxisCtl σn σl) (ys : σy)
    (hoff : ti.stabilisationEnabled = false) :
    (pidAxisStep pp g dT fb ti axis a ys).1.P = 0 ∧
    (pidAxisStep pp g dT fb ti axis a ys).1.I = 0 ∧
    (pidAxisStep pp g dT fb ti axis a ys).1.D = 0 ∧
    (pidAxisStep pp g dT fb ti axis a ys).1.prevSetpoint =
      (pidAxisStep pp g dT fb (stabOn ti) axis a ys).1.prevSetpoint ∧
    (pidAxisStep pp g dT fb ti axis a ys).1.prevRateError =
      (pidAxisStep pp g dT fb (stabOn ti) axis a ys).1.prevRateError ∧
    (pidAxisStep pp g dT fb ti axis a ys).1.notchSt =
      (pidAxisStep pp g dT fb (stabOn ti) axis a ys).1.notchSt ∧
    (pidAxisStep pp g dT fb ti axis a ys).1.lpfSt =
      (pidAxisStep pp g dT fb (stabOn ti) axis a ys).1.lpfSt ∧
    (pidAxisStep pp g dT fb ti axis a ys).2 =
      (pidAxisStep pp g dT fb (stabOn ti) axis a ys).2 ∧
    (pidAxisStep pp g dT fb ti2 axis (pidAxisStep pp g dT fb ti axis a ys).1
        (pidAxisStep pp g dT fb ti axis a ys).2).1.P =
      (pidAxisStep pp g dT fb ti2 axis
        (pidAxisStep pp g dT fb (stabOn ti) axis a ys).1
        (pidAxisStep pp g dT fb (stabOn ti) axis a ys).2).1.P ∧
    ((axis ≠ 2 ∨ ti2.triMixer = true) →
      (pidAxisStep pp g dT fb ti2 axis (pidAxisStep pp g dT fb ti axis a ys).1
          (pidAxisStep pp g dT fb ti axis a ys).2).1.D =
        (pidAxisStep pp g dT fb ti2 axis
          (pidAxisStep pp g dT fb (stabOn ti) axis a ys).1
          (pidAxisStep pp g dT fb (stabOn ti) axis a ys).2).1.D) := by
  have hP : (pidAxisStep pp g dT fb ti axis a ys).1.P = 0 := by
    simp [pidAxisStep, hoff]
  have hI : (pidAxisStep pp g dT fb ti axis a ys).1.I = 0 := by
    simp [pidAxisStep, hoff]
  have hD0 : (pidAxisStep pp g dT fb ti axis a ys).1.D = 0 := by
    simp [pidAxisStep, hoff]
  have hps : (pidAxisStep pp g dT fb ti axis a ys).1.prevSetpoint =
      (pidAxisStep pp g dT fb (stabOn ti) axis a ys).1.prevSetpoint := by
    simp [pidAxisStep, hoff, stabOn, stabOn_stabilisationEnabled, stabOn_setpointRate,
      stabOn_tpaFactor, stabOn_motorMixRange, stabOn_itermAccelerator,
      stabOn_angleMode, stabOn_horizonMode, stabOn_triMixer,
      stabOn_expectedGyroError, stabOn_gyroRate, stabOn_rcDeflection,
      stabOn_outputSaturated, stabOn_attitudeRaw, stabOn_angleTrimRaw,
      pidLevel, calcHorizonLevelStrength, constrainf, accelStage, accelerationLimit,
      axisPrevSetpointNext, axisShapedSetpoint, axisErrorRate]
  have hpre : (pidAxisStep pp g dT fb ti axis a ys).1.prevRateError =
      (pidAxisStep pp g dT fb (stabOn ti) axis a ys).1.prevRateError := by
    simp [pidAxisStep, hoff, stabOn, stabOn_stabilisationEnabled, stabOn_setpointRate,
      stabOn_tpaFactor, stabOn_motorMixRange, stabOn_itermAccelerator,
      stabOn_angleMode, stabOn_horizonMode, stabOn_triMixer,
      stabOn_expectedGyroError, stabOn_gyroRate, stabOn_rcDeflection,
      stabOn_outputSaturated, stabOn_attitudeRaw, stabOn_angleTrimRaw,
      pidLevel, calcHorizonLevelStrength, constrainf, accelStage, accelerationLimit,
      axisPrevSetpointNext, axisShapedSetpoint, axisErrorRate, dtermPath]
  have hns : (pidAxisStep pp g dT fb ti axis a ys).1.notchSt =
      (pidAxisStep pp g dT fb (stabOn ti) axis a ys).1.notchSt := by
    simp [pidAxisStep, hoff, stabOn, stabOn_stabilisationEnabled, stabOn_setpointRate,
      stabOn_tpaFactor, stabOn_motorMixRange, stabOn_itermAccelerator,
      stabOn_angleMode, stabOn_horizonMode, stabOn_triMixer,
      stabOn_expectedGyroError, stabOn_gyroRate, stabOn_rcDeflection,
      stabOn_outputSaturated, stabOn_attitudeRaw, stabOn_angleTrimRaw,
      pidLevel, calcHorizonLevelStrength, constrainf, accelStage, accelerationLimit,
      axisPrevSetpointNext, axisShapedSetpoint, axisErrorRate, dtermPath]
  have hls : (pidAxisStep pp g dT fb ti axis a ys).1.lpfSt =
      (pidAxisStep pp g dT fb (stabOn ti) axis a ys).1.lpfSt := by
    simp [pidAxisStep, hoff, stabOn, stabOn_stabilisationEnabled, stabOn_setpointRate,
      stabOn_tpaFactor, stabOn_motorMixRange, stabOn_itermAccelerator,
      stabOn_angleMode, stabOn_horizonMode, stabOn_triMixer,
      stabOn_expectedGyroError, stabOn_gyroRate, stabOn_rcDeflection,
      stabOn_outputSaturated, stabOn_attitudeRaw, stabOn_angleTrimRaw,
      pidLevel, calcHorizonLevelStrength, constrainf, accelStage, accelerationLimit,
      axisPrevSetpointNext, axisShapedSetpoint, axisErrorRate, dtermPath]
  have hys : (pidAxisStep pp g dT fb ti axis a ys).2 =
      (pidAxisStep pp g dT fb (stabOn ti) axis a ys).2 := by
    simp [pidAxisStep, hoff, stabOn, stabOn_stabilisationEnabled, stabOn_setpointRate,
      stabOn_tpaFactor, stabOn_motorMixRange, stabOn_itermAccelerator,
      stabOn_angleMode, stabOn_horizonMode, stabOn_triMixer,
      stabOn_expectedGyroError, stabOn_gyroRate, stabOn_rcDeflection,
      stabOn_outputSaturated, stabOn_attitudeRaw, stabOn_angleTrimRaw,
      pidLevel, calcHorizonLevelStrength, constrainf, accelStage, accelerationLimit,
      axisPrevSetpointNext, axisShapedSetpoint, axisErrorRate]
  refine ⟨hP, hI, hD0, hps, hpre, hns, hls, hys, ?_, ?_⟩
  · rw [hys]
    exact (pidAxisStep_history_determined pp g dT fb ti2 axis _ _ _ hps hpre hns hls).1
  · intro hd
    rw [hys]
    exact (pidAxisStep_history_determined pp g dT fb ti2 axis _ _ _
      hps hpre hns hls).2.2 hd

/-- Concrete instantiation of the amended C1 gate theorem on a quiescent
disabled tick followed by an enabled tick. -/
theorem C1_stab_gate_masks_output_witness :
    tickOff.stabilisationEnabled = false ∧
    (pidAxisStep testProfile testGains (pidDT 1000) idFB tickOff 0 axisWithI5 ()).1.I = 0 ∧
    (pidAxisStep testProfile testGains (pidDT 1000) idFB tickOff 0 axisWithI5 ()).1.prevRateError =
      (pidAxisStep testProfile testGains (pidDT 1000) idFB (stabOn tickOff) 0 axisWithI5 ()).1.prevRateError ∧
    (pidAxisStep testProfile testGains (pidDT 1000) idFB tickOn 0
        (pidAxisStep testProfile testGains (pidDT 1000) idFB tickOff 0 axisWithI5 ()).1
        (pidAxisStep testProfile testGains (pidDT 1000) idFB tickOff 0 axisWithI5 ()).2).1.P =
      (pidAxisStep testProfile testGains (pidDT 1000) idFB tickOn 0
        (pidAxisStep testProfile testGains (pidDT 1000) idFB (stabOn tickOff) 0 axisWithI5 ()).1
        (pidAxisStep testProfile testGains (pidDT 1000) idFB (stabOn tickOff) 0 axisWithI5 ()).2).1.P :=
  ⟨rfl,
    (C1_stab_gate_masks_output testProfile testGains (pidDT 1000) idFB tickOff
      tickOn 0 axisWithI5 () rfl).2.1,
    (C1_stab_gate_masks_output testProfile testGains (pidDT 1000) idFB tickOff
      tickOn 0 axisWithI5 () rfl).2.2.2.2.1,
    (C1_stab_gate_masks_output testProfile testGains (pidDT 1000) idFB tickOff
      tickOn 0 axisWithI5 () rfl).2.2.2.2.2.2.2.2.1⟩
